import Mathlib

/-!
Shallow embedding of the `log` package (deepak11627/logger): a zap-based
structured-logging façade with functional options, a shared atomic level
gate, lumberjack-backed file rotation and multi-sink fan-out.

Modelling conventions:
* zap severity levels are the inductive `Level` with the integer codes of
  `zapcore.Level` (`Debug = -1` up to `Fatal = 5`); a record is admitted by
  `zapcore.NewCore` iff its level code is `>=` the code of the gate.
* The `zap.AtomicLevel` cell and the `*lumberjack.Logger` are mutable heap
  objects shared by reference between façades; we model the heap as `Heap`
  (reference-indexed stores) and façades hold references (`Nat`).  A `nil`
  Go pointer is `Option.none`; dereferencing it (a Go runtime panic) makes
  the operation return `none`.
* Encoded output is modelled at record granularity: a write of one encoded
  record to one sink is a `(Sink × Record)` pair; the rendering of the
  severity by the JSON encoder is `capitalLevelName` (the zap
  `CapitalLevelEncoder`).  Timestamps are environmental and omitted.
* `fmt.Sprintf` is an external collaborator; operations that format take
  the formatter as an explicit function argument.
* Go `panic` during construction is the `panicked` result; a returned
  non-nil `error` is `err`.  Syslog dialing is environmental, passed in as
  a `dial` function returning a connection handle or an error.
-/

namespace LoggerEmbed

/-- zapcore severity levels used by this package (DPanic is never produced
nor parsed here and is omitted). -/
inductive Level where
  | debugLevel
  | infoLevel
  | warnLevel
  | errorLevel
  | panicLevel
  | fatalLevel
deriving DecidableEq, Repr

/-- The integer code of a `zapcore.Level` (`DebugLevel = -1`, ...,
`FatalLevel = 5`; the gap at 3 is DPanic, unused here). -/
def Level.toInt : Level → Int
  | .debugLevel => -1
  | .infoLevel  => 0
  | .warnLevel  => 1
  | .errorLevel => 2
  | .panicLevel => 4
  | .fatalLevel => 5

/-- `zapcore.CapitalLevelEncoder`: the all-caps name written under the
`level` key. -/
def capitalLevelName : Level → String
  | .debugLevel => "DEBUG"
  | .infoLevel  => "INFO"
  | .warnLevel  => "WARN"
  | .errorLevel => "ERROR"
  | .panicLevel => "PANIC"
  | .fatalLevel => "FATAL"

/-- package-level constants of `log.go`. -/
def defaultLevel : String := "info"

def defaultEncoding : String := "json"

def maxsize : Int := 20

def maxcount : Int := 3

def defaultInstanceID : String := "instance_1"

/-- The `config` struct of `log.go`.  Fields the `NewLogger` literal does
not mention start at their Go zero values (`""` / `nil`). -/
structure Config where
  encoding : String
  logLevel : String
  logPath : String
  rotationSize : Int
  rotationCount : Int
  syslogConn : String
  syslogProtocol : String
  out : Option Nat
  instanceID : String
deriving DecidableEq, Repr

/-- The `*lumberjack.Logger` state created by `getLogRotator`. -/
structure RotState where
  filename : String
  maxSize : Int
  maxBackups : Int
  localTime : Bool
  compress : Bool
deriving DecidableEq, Repr

/-- `getLogRotator` of `log.go`. -/
def getLogRotator (conf : Config) : RotState :=
  { filename := conf.logPath
    maxSize := conf.rotationSize
    maxBackups := conf.rotationCount
    localTime := true
    compress := false }

/-- The mutable heap: the contents of `zap.AtomicLevel` cells and of
`*lumberjack.Logger` objects, indexed by reference. -/
structure Heap where
  gate : Nat → Level
  rot : Nat → RotState

/-- `AtomicLevel.SetLevel` on the cell referenced by `r`. -/
def Heap.setGate (h : Heap) (r : Nat) (lv : Level) : Heap :=
  { h with gate := fun r2 => if r2 = r then lv else h.gate r2 }

/-- One byte-sink target of the multi write-syncer. -/
inductive Sink where
  | syslogSink (handle : Nat)
  | outSink (w : Nat)
  | fileSink (r : Nat)
deriving DecidableEq, Repr

/-- One encoded log record as delivered to a sink (timestamp omitted, see
module docstring). `fields` holds the bound context fields of the logger
followed by the call-site key-value pairs. -/
structure Record where
  level : Level
  msg : String
  fields : List (String × String)
deriving DecidableEq, Repr

/-- The `logger` struct of `log.go`: the embedded `*zap.SugaredLogger` is
its accumulated context fields plus the wrapped core (encoder, sink list
and level-gate reference); `rotator` and `config` are the other fields. -/
structure logger where
  context : List (String × String)
  enc : String
  sinks : List Sink
  rotator : Option Nat
  level : Nat
  config : Config

/-- The functional options of `log.go` (`Option func(*logger)`); an
inductive of the eight exported constructors since `config` is unexported
and no caller can mutate it otherwise. -/
inductive Opt where
  | withSyslog (conn protocol : String)
  | withOutput (w : Nat)
  | withLogLevel (level : String)
  | withEncoding (ec : String)
  | withLogFile (filePath : String)
  | withRotationSize (size : Int)
  | withRotationCount (count : Int)
  | withInstanceID (instanceID : String)
deriving DecidableEq, Repr

/-- Applying one option to the config of the logger, exactly as each `With...`
closure in `log.go` does.  Note `WithEncoding` assigns `defaultEncoding`,
ignoring its argument `ec` — that is what the source does. -/
def Opt.apply : Opt → Config → Config
  | .withSyslog conn protocol, c => { c with syslogConn := conn, syslogProtocol := protocol }
  | .withOutput w, c => { c with out := some w }
  | .withLogLevel level, c => { c with logLevel := level }
  | .withEncoding _, c => { c with encoding := defaultEncoding }
  | .withLogFile filePath, c => { c with logPath := filePath }
  | .withRotationSize size, c => { c with rotationSize := size }
  | .withRotationCount count, c => { c with rotationCount := count }
  | .withInstanceID instanceID, c => { c with instanceID := instanceID }

/-- `getZapLogLevel` of `log.go`; the Go `switch` is an if-chain and the
`default` branch panics, modelled as `none`. -/
def getZapLogLevel (level : String) : Option Level :=
  if level = "debug" then some .debugLevel
  else if level = "info" then some .infoLevel
  else if level = "warn" then some .warnLevel
  else if level = "error" then some .errorLevel
  else if level = "panic" then some .panicLevel
  else if level = "fatal" then some .fatalLevel
  else none

/-- The message `getZapLogLevel` panics with in its default branch. -/
def unsupportedConstructionMsg (level : String) : String :=
  "unsupported log level " ++ level ++
    ". debug, info, warn, error, panic and fatal are the only supported loglevels."

/-- The encoder chosen by the `switch conf.Encoding` in `withWrapCore`;
`none` is its `panic("unknown encoding")` default branch. -/
def pickEncoder (encoding : String) : Option String :=
  if encoding = "json" then some "json"
  else if encoding = "console" then some "console"
  else none

/-- Outcome of `NewLogger`: a logger plus the freshly allocated heap, a
returned error, or a Go panic. -/
inductive NewLoggerResult where
  | ok (l : logger) (h : Heap)
  | err (e : String)
  | panicked (msg : String)

/-- The config literal `NewLogger` starts from before applying options. -/
def initialConfig (app : String) : Config :=
  { logLevel := defaultLevel
    logPath := "/logs/" ++ app.toLower ++ ".log"
    rotationSize := maxsize
    rotationCount := maxcount
    encoding := defaultEncoding
    instanceID := defaultInstanceID
    syslogConn := ""
    syslogProtocol := ""
    out := none }

/-- `NewLogger` of `log.go`.  `dial` abstracts `GetSyslog` (a
`syslog.Dial` over the environment): it takes protocol, connection string
and tag and yields a connection handle or an error.  The atomic level cell
and the rotator are allocated at heap reference `0` of the returned heap.
Steps in source order: resolve config, `getZapLogLevel` (panics on bad
level), syslog target, extra writer target, rotating-file target (taken
iff encoding is the default), encoder choice inside `withWrapCore` (panics
on unknown encoding), then the built façade carrying the
`service`/`version`/`instance_id` fields. -/
def NewLogger (app version : String) (dial : String → String → String → Except String Nat)
    (opts : List Opt) : NewLoggerResult :=
  let c := opts.foldl (fun cfg o => o.apply cfg) (initialConfig app)
  match getZapLogLevel c.logLevel with
  | none => .panicked (unsupportedConstructionMsg c.logLevel)
  | some zapLogLevel =>
    let syslogTargets : Except String (List Sink) :=
      if c.syslogConn ≠ "" then
        match dial c.syslogProtocol c.syslogConn (app ++ "-" ++ version) with
        | .error e => .error e
        | .ok hdl => .ok [Sink.syslogSink hdl]
      else .ok []
    match syslogTargets with
    | .error e => .err e
    | .ok t1 =>
      let t2 := match c.out with
        | some w => t1 ++ [Sink.outSink w]
        | none => t1
      let targetsAndRotator :=
        if c.encoding = defaultEncoding then (t2 ++ [Sink.fileSink 0], some 0)
        else (t2, (none : Option Nat))
      match pickEncoder c.encoding with
      | none => .panicked "unknown encoding"
      | some enc =>
        .ok
          { context := [("service", app), ("version", version), ("instance_id", c.instanceID)]
            enc := enc
            sinks := targetsAndRotator.1
            rotator := targetsAndRotator.2
            level := 0
            config := c }
          { gate := fun _ => zapLogLevel
            rot := fun _ => getLogRotator c }

/-- One leveled log call through the wrapped core: `zapcore.NewCore`
admits the record iff its level code is `>=` the current code of the gate, and
the multi write-syncer then hands the encoded record to every target. -/
def logw (h : Heap) (l : logger) (sev : Level) (msg : String)
    (kvs : List (String × String)) : List (Sink × Record) :=
  if (h.gate l.level).toInt ≤ sev.toInt then
    l.sinks.map (fun s => (s, { level := sev, msg := msg, fields := l.context ++ kvs }))
  else []

/-- `logger.Debug` → `Debugw`. -/
def logger.Debug (l : logger) (h : Heap) (msg : String) (kvs : List (String × String)) :
    List (Sink × Record) :=
  logw h l .debugLevel msg kvs

/-- `logger.Info` → `Infow`. -/
def logger.Info (l : logger) (h : Heap) (msg : String) (kvs : List (String × String)) :
    List (Sink × Record) :=
  logw h l .infoLevel msg kvs

/-- `logger.Warn` → `Warnw`. -/
def logger.Warn (l : logger) (h : Heap) (msg : String) (kvs : List (String × String)) :
    List (Sink × Record) :=
  logw h l .warnLevel msg kvs

/-- `logger.Error` → `Errorw`. -/
def logger.Error (l : logger) (h : Heap) (msg : String) (kvs : List (String × String)) :
    List (Sink × Record) :=
  logw h l .errorLevel msg kvs

/-- `logger.Panic` → `Panicw` (the subsequent unwinding is control flow,
not emission, and is outside the record-level model). -/
def logger.Panic (l : logger) (h : Heap) (msg : String) (kvs : List (String × String)) :
    List (Sink × Record) :=
  logw h l .panicLevel msg kvs

/-- `logger.Fatal` → `Fatalw` (process exit after emission likewise
outside the model). -/
def logger.Fatal (l : logger) (h : Heap) (msg : String) (kvs : List (String × String)) :
    List (Sink × Record) :=
  logw h l .fatalLevel msg kvs

/-- `logger.Debugf`: formats with the ambient `sprintf` and logs at debug
severity with no call-site fields. -/
def logger.Debugf (sprintf : String → List String → String) (l : logger) (h : Heap)
    (format : String) (args : List String) : List (Sink × Record) :=
  logw h l .debugLevel (sprintf format args) []

/-- `logger.Printf`: delegates to `SugaredLogger.Infof`, i.e. formats and
logs at info severity with no call-site fields. -/
def logger.Printf (sprintf : String → List String → String) (l : logger) (h : Heap)
    (format : String) (args : List String) : List (Sink × Record) :=
  logw h l .infoLevel (sprintf format args) []

/-- `logger.With`: a new façade around `l.SugaredLogger.With(keyvals...)`
(same core — encoder, sinks and level-gate reference — with the key-value
pairs appended to the bound context), and the struct literal
`&logger{..., nil, l.level, l.config}`: the rotator field is the literal
`nil`, the level reference and config pointer are shared. -/
def logger.With (l : logger) (kvs : List (String × String)) : logger :=
  { context := l.context ++ kvs
    enc := l.enc
    sinks := l.sinks
    rotator := none
    level := l.level
    config := l.config }

/-- The warning text of the default branch of `SetLogLevel`. -/
def unsupportedRuntimeMsg : String :=
  "can\x27t change to a unsupported log level. Only debug, info, warn, error, panic and fatal levels are supported."

/-- `logger.SetLogLevel`: the Go `switch` sets the shared atomic cell for
the six recognized names; the default branch logs a warning through the
same logger and touches nothing.  Returns the updated heap and whatever
records the call itself emitted. -/
def logger.SetLogLevel (l : logger) (h : Heap) (level : String) :
    Heap × List (Sink × Record) :=
  if level = "debug" then (h.setGate l.level .debugLevel, [])
  else if level = "info" then (h.setGate l.level .infoLevel, [])
  else if level = "warn" then (h.setGate l.level .warnLevel, [])
  else if level = "error" then (h.setGate l.level .errorLevel, [])
  else if level = "panic" then (h.setGate l.level .panicLevel, [])
  else if level = "fatal" then (h.setGate l.level .fatalLevel, [])
  else (h, l.Warn h unsupportedRuntimeMsg [])

/-- `logger.SetLogRotationSize`: `l.rotator.MaxSize = size`.  When
`l.rotator` is the `nil` pointer this is a Go nil-dereference panic,
modelled as `none`. -/
def logger.SetLogRotationSize (l : logger) (h : Heap) (size : Int) : Option Heap :=
  match l.rotator with
  | some r =>
      some { h with rot := fun r2 => if r2 = r then { h.rot r2 with maxSize := size } else h.rot r2 }
  | none => none

/-- `logger.SetLogRotationCount`: `l.rotator.MaxBackups = count`, same
nil-pointer modelling. -/
def logger.SetLogRotationCount (l : logger) (h : Heap) (count : Int) : Option Heap :=
  match l.rotator with
  | some r =>
      some { h with rot := fun r2 => if r2 = r then { h.rot r2 with maxBackups := count } else h.rot r2 }
  | none => none

/-- The level named by the recognized cases of `SetLogLevel` (helper for
stating theorems about the valid branches). -/
def levelByName (level : String) : Option Level :=
  if level = "debug" then some .debugLevel
  else if level = "info" then some .infoLevel
  else if level = "warn" then some .warnLevel
  else if level = "error" then some .errorLevel
  else if level = "panic" then some .panicLevel
  else if level = "fatal" then some .fatalLevel
  else none

/-! Helper definitions for stating and witnessing theorems. -/

/-- Extracts the resolved config of the built logger from a `NewLogger` outcome. -/
def resultConfig : NewLoggerResult → Option Config
  | .ok l _ => some l.config
  | _ => none

/-- A dial function for concrete instantiations: syslog is never reachable
in them because `syslogConn` stays empty. -/
def d0 : String → String → String → Except String Nat :=
  fun _ _ _ => Except.error "no dial"

/-- A concrete rotator state for sample heaps. -/
def sampleRot : RotState := getLogRotator (initialConfig "svc")

/-- A concrete heap whose level cell holds the default info threshold. -/
def sampleHeap : Heap := { gate := fun _ => Level.infoLevel, rot := fun _ => sampleRot }

/-- A concrete façade as `NewLogger "svc" "1.0.0"` with an extra writer
would produce it. -/
def sampleLogger : logger :=
  { context := [("service", "svc"), ("version", "1.0.0"), ("instance_id", "instance_1")]
    enc := "json"
    sinks := [Sink.outSink 7, Sink.fileSink 0]
    rotator := some 0
    level := 0
    config := initialConfig "svc" }

/-- Resolved config of `NewLogger "myservice" "1.0.0"` with an extra
writer `7`. -/
def c7Config : Config := { initialConfig "myservice" with out := some 7 }

/-- The façade `NewLogger "myservice" "1.0.0" d0 [.withOutput 7]` builds. -/
def c7Logger : logger :=
  { context := [("service", "myservice"), ("version", "1.0.0"), ("instance_id", "instance_1")]
    enc := "json"
    sinks := [Sink.outSink 7, Sink.fileSink 0]
    rotator := some 0
    level := 0
    config := c7Config }

/-- The heap that construction allocates. -/
def c7Heap : Heap :=
  { gate := fun _ => Level.infoLevel, rot := fun _ => getLogRotator c7Config }

/-- Resolved config with extra writer `7` and instance ID `"inst7"`. -/
def c7iConfig : Config :=
  { initialConfig "myservice" with out := some 7, instanceID := "inst7" }

/-- The façade `NewLogger "myservice" "1.0.0" d0 [.withOutput 7,
.withInstanceID "inst7"]` builds. -/
def c7iLogger : logger :=
  { context := [("service", "myservice"), ("version", "1.0.0"), ("instance_id", "inst7")]
    enc := "json"
    sinks := [Sink.outSink 7, Sink.fileSink 0]
    rotator := some 0
    level := 0
    config := c7iConfig }

/-- The heap that construction allocates for `c7iLogger`. -/
def c7iHeap : Heap :=
  { gate := fun _ => Level.infoLevel, rot := fun _ => getLogRotator c7iConfig }

/-- The record `c7iLogger.Info c7iHeap "x" []` hands to each sink. -/
def c7iRec : Record :=
  { level := .infoLevel
    msg := "x"
    fields := [("service", "myservice"), ("version", "1.0.0"), ("instance_id", "inst7")] }

/-- The record a `With`-derived façade of `sampleLogger` emits for an
info-level call of `"m"` with no call-site fields. -/
def c5Rec : Record :=
  { level := .infoLevel
    msg := "m"
    fields := [("service", "svc"), ("version", "1.0.0"), ("instance_id", "instance_1"),
               ("k", "v")] }

/-- Every exported option constructor leaves a `"json"` encoding at
`"json"`: `WithEncoding` assigns `defaultEncoding` and no other option
touches the field. -/
theorem Opt.apply_encoding_json (o : Opt) (c : Config) (hc : c.encoding = "json") :
    (o.apply c).encoding = "json" := by
  cases o <;> simp [Opt.apply, defaultEncoding, hc]

/-- Folding any option list over a config with `"json"` encoding keeps the
encoding `"json"`. -/
theorem foldl_encoding_json (opts : List Opt) (c : Config) (hc : c.encoding = "json") :
    (opts.foldl (fun cfg o => o.apply cfg) c).encoding = "json" := by
  induction opts generalizing c with
  | nil => exact hc
  | cons o rest ih =>
    simp only [List.foldl_cons]
    exact ih _ (Opt.apply_encoding_json o c hc)

/-! Claim theorems. -/

/-- C6: for every service name and version, `NewLogger` with no options
resolves the config to level `info`, rotation size `20`, rotation count
`3`, encoding `json` and log path `"/logs/" ++ lowercase(service) ++ ".log"`
(and construction succeeds, so `resultConfig` is `some`). -/
theorem C6_default_config (app version : String)
    (dial : String → String → String → Except String Nat) :
    resultConfig (NewLogger app version dial []) =
      some { logLevel := "info"
             logPath := "/logs/" ++ app.toLower ++ ".log"
             rotationSize := 20
             rotationCount := 3
             encoding := "json"
             instanceID := "instance_1"
             syslogConn := ""
             syslogProtocol := ""
             out := none } := rfl

/-- C1 (code bug): supplying the recognized encoding name `"console"`
through the encoding override option still yields a logger whose
configured encoding is `"json"`, because `WithEncoding` assigns
`defaultEncoding` and ignores its argument. -/
theorem C1_console_encoding_ignored :
    ∃ l h, NewLogger "myservice" "1.0.0" d0 [.withEncoding "console"] = .ok l h
      ∧ l.config.encoding = "json" ∧ l.config.encoding ≠ "console" := by
  refine ⟨_, _, rfl, rfl, by decide⟩

/-- C2 (code bug): the façade derived by `With` carries a `nil` rotator
(`&logger{..., nil, l.level, l.config}`), so `SetLogRotationSize` on it
nil-dereferences (returns `none` in the model) while the same call on the
parent succeeds. -/
theorem C2_derived_rotation_setter_panics :
    ∃ l h, NewLogger "myservice" "1.0.0" d0 [] = .ok l h
      ∧ (l.With [("k", "v")]).rotator = none
      ∧ logger.SetLogRotationSize (l.With [("k", "v")]) h 10 = none
      ∧ (logger.SetLogRotationSize l h 10).isSome = true := by
  refine ⟨_, _, rfl, rfl, rfl, rfl⟩

/-- C3: `SetLogLevel` with any string outside the six recognized names
returns normally (no panic) with the heap — hence the threshold —
unchanged, and issues the fixed warning through the very same façade. -/
theorem C3_invalid_runtime_level (s : String) (l : logger) (h : Heap)
    (h1 : s ≠ "debug") (h2 : s ≠ "info") (h3 : s ≠ "warn") (h4 : s ≠ "error")
    (h5 : s ≠ "panic") (h6 : s ≠ "fatal") :
    l.SetLogLevel h s = (h, l.Warn h unsupportedRuntimeMsg []) := by
  simp [logger.SetLogLevel, h1, h2, h3, h4, h5, h6]

/-- Witness for C3 at the unrecognized name `"verbose"` on a concrete
façade and heap. -/
theorem C3_invalid_runtime_level_witness :
    logger.SetLogLevel sampleLogger sampleHeap "verbose" =
      (sampleHeap, logger.Warn sampleLogger sampleHeap unsupportedRuntimeMsg []) :=
  C3_invalid_runtime_level "verbose" sampleLogger sampleHeap (by decide) (by decide)
    (by decide) (by decide) (by decide) (by decide)

/-- C4: each façade method is the common gated write at its severity, and
a record reaches a sink exactly when the sink is an active target and the
severity code of the record is at or above the current threshold code of the gate —
in particular a below-threshold record appears in no sink. -/
theorem C4_admission_gate (h : Heap) (l : logger) (sev : Level) (msg : String)
    (kvs : List (String × String)) (s : Sink) :
    (l.Debug h msg kvs = logw h l .debugLevel msg kvs
      ∧ l.Info h msg kvs = logw h l .infoLevel msg kvs
      ∧ l.Warn h msg kvs = logw h l .warnLevel msg kvs
      ∧ l.Error h msg kvs = logw h l .errorLevel msg kvs
      ∧ l.Panic h msg kvs = logw h l .panicLevel msg kvs
      ∧ l.Fatal h msg kvs = logw h l .fatalLevel msg kvs)
    ∧ ((∃ r, (s, r) ∈ logw h l sev msg kvs) ↔
        (s ∈ l.sinks ∧ (h.gate l.level).toInt ≤ sev.toInt)) := by
  refine ⟨⟨rfl, rfl, rfl, rfl, rfl, rfl⟩, ?_⟩
  simp only [logw]
  split
  next hadm =>
    constructor
    · rintro ⟨r, hr⟩
      simp only [List.mem_map] at hr
      obtain ⟨a, ha, heq⟩ := hr
      cases heq
      exact ⟨ha, hadm⟩
    · rintro ⟨hs, _⟩
      exact ⟨_, List.mem_map_of_mem _ hs⟩
  next hadm =>
    simp [hadm]

/-- Witness for C4 on a concrete façade at the info threshold: a warn
record reaches the extra writer, a debug record reaches no sink. -/
theorem C4_admission_gate_witness :
    (∃ r, (Sink.outSink 7, r) ∈ logw sampleHeap sampleLogger .warnLevel "m" [])
    ∧ ¬ ∃ r, (Sink.outSink 7, r) ∈ logw sampleHeap sampleLogger .debugLevel "m" [] :=
  ⟨(C4_admission_gate sampleHeap sampleLogger .warnLevel "m" [] (Sink.outSink 7)).2.mpr
     (by decide),
   fun hr => by
     have hadm := (C4_admission_gate sampleHeap sampleLogger .debugLevel "m" []
       (Sink.outSink 7)).2.mp hr
     revert hadm
     decide⟩

/-- C5: records logged through a `With`-derived façade carry the bound
pair, the derived façade references the very same level cell as its
parent, and setting a recognized level name through the derived façade
changes the threshold the parent reads. -/
theorem C5_with_binds_fields_and_shares_gate (l : logger) (h : Heap) (sev : Level)
    (msg : String) (extra : List (String × String)) (s : Sink) (r : Record)
    (name : String) (lv : Level) :
    ((s, r) ∈ logw h (l.With [("k", "v")]) sev msg extra → ("k", "v") ∈ r.fields)
    ∧ (l.With [("k", "v")]).level = l.level
    ∧ (levelByName name = some lv →
        (((l.With [("k", "v")]).SetLogLevel h name).1).gate l.level = lv) := by
  refine ⟨?_, rfl, ?_⟩
  · intro hmem
    simp only [logw, logger.With] at hmem
    split at hmem
    · simp only [List.mem_map] at hmem
      obtain ⟨a, ha, heq⟩ := hmem
      cases heq
      simp
    · simp at hmem
  · intro hname
    unfold levelByName at hname
    split_ifs at hname with h1 h2 h3 h4 h5 h6 <;>
      (cases hname; subst_vars; simp [logger.SetLogLevel, logger.With, Heap.setGate])

/-- Witness for C5 on a concrete façade: the derived record carries
`k:v`, and `SetLogLevel "error"` through the derived façade moves the
cell the parent reads to the error threshold. -/
theorem C5_with_binds_fields_and_shares_gate_witness :
    ("k", "v") ∈ c5Rec.fields
    ∧ (((sampleLogger.With [("k", "v")]).SetLogLevel sampleHeap "error").1).gate
        sampleLogger.level = .errorLevel :=
  ⟨(C5_with_binds_fields_and_shares_gate sampleLogger sampleHeap .infoLevel "m" []
      (Sink.outSink 7) c5Rec "error" .errorLevel).1 (by decide),
   (C5_with_binds_fields_and_shares_gate sampleLogger sampleHeap .infoLevel "m" []
      (Sink.outSink 7) c5Rec "error" .errorLevel).2.2 (by decide)⟩

/-- C7: a logger built with only an extra writer delivers, for
`Info "this is a test message"`, exactly one record to that writer, with
info severity (rendered `"INFO"`), the given message, and the
`service`/`version`/`instance_id` context from construction; and with an
explicit instance ID every emitted record carries that ID under
`instance_id`. -/
theorem C7_single_json_record (app version : String)
    (dial : String → String → String → Except String Nat) (w : Nat) (i : String) :
    (∀ l h, NewLogger app version dial [.withOutput w] = .ok l h →
      (l.Info h "this is a test message" []).filter (fun p => p.1 = .outSink w) =
        [(.outSink w,
          { level := .infoLevel
            msg := "this is a test message"
            fields := [("service", app), ("version", version),
                       ("instance_id", "instance_1")] })])
    ∧ capitalLevelName .infoLevel = "INFO"
    ∧ (∀ l h sev msg kvs s r,
        NewLogger app version dial [.withOutput w, .withInstanceID i] = .ok l h →
        (s, r) ∈ logw h l sev msg kvs → ("instance_id", i) ∈ r.fields) := by
  refine ⟨?_, rfl, ?_⟩
  · intro l h hok
    injection hok with hl hh
    subst hl hh
    simp [logger.Info, logw, Level.toInt, Opt.apply, initialConfig, defaultEncoding,
      defaultInstanceID]
  · intro l h sev msg kvs s r hok hmem
    injection hok with hl hh
    subst hl hh
    simp only [logw] at hmem
    split at hmem
    · simp only [List.mem_map] at hmem
      obtain ⟨a, ha, heq⟩ := hmem
      cases heq
      simp [Opt.apply, initialConfig]
    · simp at hmem

/-- Witness for C7 on the concrete construction with writer `7` (and,
for the instance-ID half, ID `"inst7"`). -/
theorem C7_single_json_record_witness :
    (c7Logger.Info c7Heap "this is a test message" []).filter
        (fun p => p.1 = Sink.outSink 7) =
      [(Sink.outSink 7,
        { level := .infoLevel
          msg := "this is a test message"
          fields := [("service", "myservice"), ("version", "1.0.0"),
                     ("instance_id", "instance_1")] })]
    ∧ ("instance_id", "inst7") ∈ c7iRec.fields :=
  ⟨(C7_single_json_record "myservice" "1.0.0" d0 7 "inst7").1 c7Logger c7Heap rfl,
   (C7_single_json_record "myservice" "1.0.0" d0 7 "inst7").2.2 c7iLogger c7iHeap
     .infoLevel "x" [] (Sink.outSink 7) c7iRec rfl (by decide)⟩

/-- C8: `NewLogger` with any level name outside the six recognized ones
panics with the `getZapLogLevel` message — it does not substitute a default
and return a logger. -/
theorem C8_invalid_construction_level_panics (lvl app version : String)
    (dial : String → String → String → Except String Nat)
    (h1 : lvl ≠ "debug") (h2 : lvl ≠ "info") (h3 : lvl ≠ "warn") (h4 : lvl ≠ "error")
    (h5 : lvl ≠ "panic") (h6 : lvl ≠ "fatal") :
    NewLogger app version dial [.withLogLevel lvl] =
      .panicked (unsupportedConstructionMsg lvl) := by
  simp [NewLogger, Opt.apply, initialConfig, getZapLogLevel, h1, h2, h3, h4, h5, h6]

/-- Witness for C8 at the unrecognized construction-time name
`"verbose"`. -/
theorem C8_invalid_construction_level_panics_witness :
    NewLogger "svc" "1.0.0" d0 [.withLogLevel "verbose"] =
      .panicked (unsupportedConstructionMsg "verbose") :=
  C8_invalid_construction_level_panics "verbose" "svc" "1.0.0" d0 (by decide) (by decide)
    (by decide) (by decide) (by decide) (by decide)

/-- C9: `Printf` emits through the info-severity gated path: its record
reaches a sink iff the sink is active and info is at or above the current
threshold, and every record it emits has info severity, the formatted
message, and renders as `"INFO"`. -/
theorem C9_printf_info_severity (sprintf : String → List String → String) (l : logger)
    (h : Heap) (format : String) (args : List String) (s : Sink) :
    ((∃ r, (s, r) ∈ l.Printf sprintf h format args) ↔
      (s ∈ l.sinks ∧ (h.gate l.level).toInt ≤ Level.infoLevel.toInt))
    ∧ (∀ s2 r, (s2, r) ∈ l.Printf sprintf h format args →
        r.level = .infoLevel ∧ r.msg = sprintf format args
          ∧ capitalLevelName r.level = "INFO") := by
  constructor
  · simp only [logger.Printf, logw]
    split
    next hadm =>
      constructor
      · rintro ⟨r, hr⟩
        simp only [List.mem_map] at hr
        obtain ⟨a, ha, heq⟩ := hr
        cases heq
        exact ⟨ha, hadm⟩
      · rintro ⟨hs, _⟩
        exact ⟨_, List.mem_map_of_mem _ hs⟩
    next hadm =>
      simp [hadm]
  · intro s2 r hmem
    simp only [logger.Printf, logw] at hmem
    split at hmem
    · simp only [List.mem_map] at hmem
      obtain ⟨a, ha, heq⟩ := hmem
      cases heq
      exact ⟨rfl, rfl, rfl⟩
    · simp at hmem

/-- Witness for C9 on a concrete façade at the info threshold with a
concrete formatter: the formatted record is delivered to the extra
writer with info severity. -/
theorem C9_printf_info_severity_witness :
    (∃ r, (Sink.outSink 7, r) ∈
      sampleLogger.Printf (fun f _ => f) sampleHeap "hello" []) :=
  (C9_printf_info_severity (fun f _ => f) sampleLogger sampleHeap "hello" []
    (Sink.outSink 7)).1.mpr (by decide)

/-- The construction-time level message never equals the `withWrapCore` panic
message (their lengths differ), helper for C10. -/
theorem unsupportedConstructionMsg_ne_unknown_encoding (s : String) :
    unsupportedConstructionMsg s ≠ "unknown encoding" := by
  intro hc
  have hlen := congrArg String.length hc
  simp [unsupportedConstructionMsg, String.length_append] at hlen
  have hx : (". debug, info, warn, error, panic and fatal are the only supported loglevels." :
      String).length = 77 := rfl
  have hy : ("unknown encoding" : String).length = 16 := rfl
  omega

/-- C10: whatever option list is supplied, the resolved encoding is
`"json"`; the `withWrapCore` switch therefore picks the JSON encoder (the
console branch and its `"unknown encoding"` panic are unreachable), every
successfully built logger has the rotating-file sink among its targets
and a live rotator, and no construction outcome is the `"unknown
encoding"` panic. -/
theorem C10_json_only_with_file_sink (app version : String)
    (dial : String → String → String → Except String Nat) (opts : List Opt) :
    ((opts.foldl (fun cfg o => o.apply cfg) (initialConfig app)).encoding = "json")
    ∧ pickEncoder (opts.foldl (fun cfg o => o.apply cfg) (initialConfig app)).encoding =
        some "json"
    ∧ (∀ l h, NewLogger app version dial opts = .ok l h →
        l.config.encoding = "json" ∧ Sink.fileSink 0 ∈ l.sinks ∧ l.rotator = some 0
          ∧ l.enc = "json")
    ∧ (∀ m, NewLogger app version dial opts = .panicked m → m ≠ "unknown encoding") := by
  have henc := foldl_encoding_json opts (initialConfig app) rfl
  refine ⟨henc, by simp [pickEncoder, henc], ?_, ?_⟩
  · intro l h hok
    simp only [NewLogger] at hok
    split at hok
    · exact NewLoggerResult.noConfusion hok
    · split at hok
      · exact NewLoggerResult.noConfusion hok
      · rw [henc] at hok
        simp only [pickEncoder, defaultEncoding, if_pos rfl] at hok
        injection hok with hl hh
        subst hl
        refine ⟨henc, by simp, rfl, rfl⟩
  · intro m hpan
    simp only [NewLogger] at hpan
    split at hpan
    · injection hpan with hm
      subst hm
      exact unsupportedConstructionMsg_ne_unknown_encoding _
    · split at hpan
      · exact NewLoggerResult.noConfusion hpan
      · rw [henc] at hpan
        simp [pickEncoder, defaultEncoding] at hpan

/-- Witness for C10: the concrete construction that asks for `"console"`
still carries the file sink, and a concrete level panic is not the
encoding panic. -/
theorem C10_json_only_with_file_sink_witness :
    (([Opt.withEncoding "console"].foldl (fun cfg o => o.apply cfg)
        (initialConfig "svc")).encoding = "json")
    ∧ unsupportedConstructionMsg "bad" ≠ "unknown encoding" :=
  ⟨(C10_json_only_with_file_sink "svc" "1.0.0" d0 [.withEncoding "console"]).1,
   (C10_json_only_with_file_sink "svc" "1.0.0" d0 [.withLogLevel "bad"]).2.2.2
     (unsupportedConstructionMsg "bad") rfl⟩

end LoggerEmbed
